import Mathlib

/-!
Shallow embedding of the snapshot_report pamphlet application (src/app.py).

Python floats are modelled by `ℚ`, Python `None` by `Option`, and a Python
function that can raise an exception is modelled as returning `Option`/`Except`
(`none`/`.error` marks the raise).  Remote SQL tables are modelled as Lean
lists of records, and the parameterised SQL queries as list transformations
following the SQL semantics (GROUP BY, HAVING with three-valued NULL logic,
ORDER BY, LIMIT).
-/

namespace SnapshotReport

/-- Python `x or 0` applied to a possibly-`None` numeric value. -/
def pyOr0 (x : Option ℚ) : ℚ := x.getD 0

/-- Python `int(q)` on a float: truncation toward zero. -/
def ratTrunc (q : ℚ) : ℤ := if 0 ≤ q then ⌊q⌋ else ⌈q⌉

/-- From src/app.py: `chewon_to_eok(x) = float(x or 0) / 100000.0`
(thousand-won to hundred-million-won).  The argument is `Option` so that the
Python `x or 0` treatment of `None` is visible. -/
def chewon_to_eok (x : Option ℚ) : ℚ := pyOr0 x / 100000

/-- From src/app.py: `chewon_to_man(x) = float(x or 0) / 10.0`
(thousand-won to ten-thousand-won). -/
def chewon_to_man (x : Option ℚ) : ℚ := pyOr0 x / 10

/-- From src/app.py: `manwon_to_chewon(m) = int(m) * 10`.  Python `int(None)`
raises `TypeError`, so the `none` input maps to `none` (the raise); a numeric
input is truncated toward zero and multiplied by 10. -/
def manwon_to_chewon (m : Option ℚ) : Option ℤ := m.map (fun q => ratTrunc q * 10)

/-- One aggregated output row of the D1 query in `fetch_top_rows` /
`fetch_top_rows_after_age` (a Python dict row).  `prevalence_per_100k` and
`cost_per_patient` are `Option` because SQLite `NULLIF` makes them NULL when
the denominator sum is zero. -/
structure AggRow where
  disease_code : String
  disease_name_ko : String
  total_cost : ℚ
  patient_cnt : ℤ
  population : ℤ
  prevalence_per_100k : Option ℚ
  cost_per_patient : Option ℚ
deriving DecidableEq, Repr

/-- From src/app.py: `pick_emerging_rows(now_rows, after_rows, limit=5)` —
rows of `after_rows` whose stripped disease code is not among the stripped
codes of `now_rows`, truncated to `limit`. -/
def pick_emerging_rows (now_rows after_rows : List AggRow) (limit : Nat := 5) :
    List AggRow :=
  let now_codes := now_rows.map (fun r => r.disease_code.trim)
  (after_rows.filter (fun r => !(now_codes.contains r.disease_code.trim))).take limit

/-- One row of the `report_issue` audit table as inserted by
`insert_report_issue`; `created_date` models SQLite `date(created_at)` of the
row, the date on which the insert ran. -/
structure AuditRecord where
  fc_id : String
  fc_name : String
  customer_name : Option String
  customer_gender : String
  customer_age_band : String
  start_year : ℤ
  end_year : ℤ
  sort_key : String
  min_prev_100k : ℚ
  min_cpp_manwon : ℤ
  pdf_r2_key : String
  pdf_filename : String
  compliance_code : String
  segments_version : String
  created_date : String
deriving DecidableEq, Repr

/-- The pieces of `datetime.now(ZoneInfo("Asia/Seoul"))` that the publish path
reads: `strftime("%Y")`, `strftime("%m%d")` and `strftime("%Y-%m-%d")`. -/
structure KstNow where
  year : String
  mmdd : String
  dateStr : String
deriving DecidableEq, Repr

/-- Python `f"{seq:04d}"`: decimal rendering left-padded with zeros to at
least four digits. -/
def pad4 (n : Nat) : String :=
  let s := toString n
  String.mk (List.replicate (4 - s.length) '0') ++ s

/-- From src/app.py: `get_today_report_issue_count()` — the
`SELECT COUNT(*) FROM report_issue WHERE date(created_at) = ?` query with the
KST today string as parameter, over the store modelled as a list. -/
def today_report_issue_count (store : List AuditRecord) (today : String) : Nat :=
  (store.filter (fun r => r.created_date == today)).length

/-- From src/app.py: `generate_compliance_code(service_name, version)` —
`f"{year}-{service_name}-v{version}-{mmdd}{seq_str}"` with
`seq = get_today_report_issue_count() + 1` and `seq_str = f"{seq:04d}"`. -/
def generate_compliance_code (service_name version : String) (now : KstNow)
    (store : List AuditRecord) : String :=
  now.year ++ "-" ++ service_name ++ "-v" ++ version ++ "-" ++ now.mmdd ++
    pad4 (today_report_issue_count store now.dateStr + 1)

/-- From src/app.py: `upload_pdf_to_r2(pdf_bytes, compliance_code)` — returns
`(r2_key, filename)` with the deterministic key
`report/{year}/{mmdd}/{compliance_code}.pdf`; the R2 `put_object` call's
possible failure is the explicit `outcome` argument (`.error` = the raised
exception's message). -/
def upload_pdf_to_r2 (outcome : Except String Unit) (now : KstNow)
    (compliance_code : String) : Except String (String × String) :=
  match outcome with
  | .error e => .error e
  | .ok _ =>
    .ok ("report/" ++ now.year ++ "/" ++ now.mmdd ++ "/" ++ compliance_code ++ ".pdf",
      compliance_code ++ ".pdf")

/-- Modelled from the spec: the `report_issue` table's `created_at` column is
assigned by the remote D1 schema, which is not part of src/; per the spec the
daily sequence counts publication records created "today" in the fixed KST
time zone, so an inserted record is stamped with the current KST date string
(what `date(created_at)` later evaluates to for it). -/
def created_date_of_insert (now : KstNow) : String := now.dateStr

/-- From src/app.py: `insert_report_issue(...)` — one `INSERT INTO report_issue`
whose possible failure is the explicit `outcome` argument; on success the
record is appended to the store. -/
def insert_report_issue (outcome : Except String Unit) (store : List AuditRecord)
    (rec : AuditRecord) : Except String (List AuditRecord) :=
  match outcome with
  | .error e => .error e
  | .ok _ => .ok (store ++ [rec])

/-- The request-context arguments of `publish_report`. -/
structure PublishArgs where
  segments_version : String
  fc_id : String
  fc_name : String
  customer_name : Option String
  customer_gender : String
  customer_age_band : String
  start_year : ℤ
  end_year : ℤ
  sort_key : String
  min_prev_100k : ℚ
  min_cpp_manwon : ℤ
deriving DecidableEq, Repr

/-- The external world of one publish attempt: the KST clock and the outcomes
of the two remote side effects (R2 upload and D1 insert). -/
structure PublishEnv where
  now : KstNow
  uploadOutcome : Except String Unit
  insertOutcome : Except String Unit
deriving Repr

/-- Observable outcome of `publish_report`: the returned compliance code or the
raised `RuntimeError` message, the audit store afterwards, and whether
`insert_report_issue` was ever invoked. -/
structure PublishOutcome where
  result : Except String String
  store : List AuditRecord
  insert_invoked : Bool
deriving Repr

/-- From src/app.py: `publish_report(...)` — generate the compliance code,
upload the PDF (a failure re-raises
`RuntimeError(f"PDF R2 업로드 실패: {e}")` before `insert_report_issue` runs),
then insert the audit record (a failure re-raises
`RuntimeError(f"report_issue DB 기록 실패: {e}")`), then return the code. -/
def publish_report (env : PublishEnv) (store : List AuditRecord)
    (a : PublishArgs) : PublishOutcome :=
  let compliance_code :=
    generate_compliance_code "보장점검" a.segments_version env.now store
  match upload_pdf_to_r2 env.uploadOutcome env.now compliance_code with
  | .error e =>
    { result := .error ("PDF R2 업로드 실패: " ++ e), store := store,
      insert_invoked := false }
  | .ok (pdf_r2_key, pdf_filename) =>
    match insert_report_issue env.insertOutcome store
      { fc_id := a.fc_id, fc_name := a.fc_name, customer_name := a.customer_name,
        customer_gender := a.customer_gender,
        customer_age_band := a.customer_age_band, start_year := a.start_year,
        end_year := a.end_year, sort_key := a.sort_key,
        min_prev_100k := a.min_prev_100k, min_cpp_manwon := a.min_cpp_manwon,
        pdf_r2_key := pdf_r2_key, pdf_filename := pdf_filename,
        compliance_code := compliance_code,
        segments_version := a.segments_version,
        created_date := created_date_of_insert env.now } with
    | .error e =>
      { result := .error ("report_issue DB 기록 실패: " ++ e), store := store,
        insert_invoked := true }
    | .ok newStore =>
      { result := .ok compliance_code, store := newStore, insert_invoked := true }

/-- An environment in which both remote side effects succeed (the
single-threaded test harness of scenario E). -/
def envOk (now : KstNow) : PublishEnv :=
  { now := now, uploadOutcome := .ok (), insertOutcome := .ok () }

/-- One underlying row of the remote `disease_year_age_sex_metrics` table. -/
structure MetricRow where
  year : ℤ
  age_group : String
  sex : String
  disease_code : String
  total_cost : ℚ
  patient_cnt : ℤ
  population : ℤ
deriving DecidableEq, Repr

/-- SQL `COALESCE(NULLIF(TRIM(d.disease_name_ko), ''), m.disease_code)` where
`names` is the `disease` lookup table of the `LEFT JOIN` (a `none` result is an
unmatched join, i.e. NULL name). -/
def displayName (names : String → Option String) (code : String) : String :=
  match names code with
  | none => code
  | some n => if n.trim = "" then code else n.trim

/-- The `WHERE` clause of `fetch_top_rows`:
`m.year BETWEEN ? AND ? AND m.age_group = ? AND m.sex = ?`. -/
def whereFilterCurrent (db : List MetricRow) (sy ey : ℤ) (ag sx : String) :
    List MetricRow :=
  db.filter (fun m =>
    decide (sy ≤ m.year) && decide (m.year ≤ ey) && (m.age_group == ag) && (m.sex == sx))

/-- The `WHERE` clause of `fetch_top_rows_after_age`:
`m.year BETWEEN ? AND ? AND m.sex = ? AND m.age_group IN (...)`. -/
def whereFilterAfter (db : List MetricRow) (sy ey : ℤ) (ags : List String)
    (sx : String) : List MetricRow :=
  db.filter (fun m =>
    decide (sy ≤ m.year) && decide (m.year ≤ ey) && (m.sex == sx) &&
      ags.contains m.age_group)

/-- One `GROUP BY m.disease_code` output row over an already `WHERE`-filtered
row list: the three `SUM`s and the two `NULLIF`-guarded derived metrics
(`NULL`, i.e. `none`, when the denominator sum is 0 — SQLite never divides by
zero here). -/
def aggRowFor (names : String → Option String) (rows : List MetricRow)
    (code : String) : AggRow :=
  let g := rows.filter (fun m => m.disease_code == code)
  let costSum := (g.map (fun m => m.total_cost)).sum
  let patSum := (g.map (fun m => m.patient_cnt)).sum
  let popSum := (g.map (fun m => m.population)).sum
  { disease_code := code
    disease_name_ko := displayName names code
    total_cost := costSum
    patient_cnt := patSum
    population := popSum
    prevalence_per_100k :=
      if popSum = 0 then none else some ((patSum : ℚ) / (popSum : ℚ) * 100000)
    cost_per_patient :=
      if patSum = 0 then none else some (costSum / (patSum : ℚ)) }

/-- All `GROUP BY` output rows (one per distinct disease code of the filtered
input) before the `HAVING` clause. -/
def aggGroups (names : String → Option String) (filtered : List MetricRow) :
    List AggRow :=
  ((filtered.map (fun m => m.disease_code)).dedup).map (aggRowFor names filtered)

/-- The optional `HAVING` clause on prevalence: only added when the threshold
is non-null and positive (`min_prev_100k is not None and float(min_prev_100k) > 0`);
a NULL prevalence fails the SQL comparison. -/
def passes_min_prev (min_prev_100k : Option ℚ) (r : AggRow) : Bool :=
  match min_prev_100k with
  | none => true
  | some p =>
    if 0 < p then
      match r.prevalence_per_100k with
      | none => false
      | some v => decide (p ≤ v)
    else true

/-- The optional `HAVING` clause on cost-per-patient: only added when the
threshold is non-null and positive; a NULL cost-per-patient fails it. -/
def passes_min_cpp (min_cpp_chewon : Option ℤ) (r : AggRow) : Bool :=
  match min_cpp_chewon with
  | none => true
  | some c =>
    if 0 < c then
      match r.cost_per_patient with
      | none => false
      | some v => decide ((c : ℚ) ≤ v)
    else true

/-- The silent sort-key fallback of both fetch functions: an unrecognized key
becomes `"total_cost"`. -/
def effective_sort_key (sort_key : String) : String :=
  if sort_key = "total_cost" ∨ sort_key = "prevalence_per_100k" ∨
      sort_key = "cost_per_patient" then sort_key
  else "total_cost"

/-- The `ORDER BY` key of an aggregated row (`none` is SQL NULL, which sorts
below every value). -/
def orderKey (sort_key : String) (r : AggRow) : Option ℚ :=
  if effective_sort_key sort_key = "prevalence_per_100k" then r.prevalence_per_100k
  else if effective_sort_key sort_key = "cost_per_patient" then r.cost_per_patient
  else some r.total_cost

/-- Comparator realising `ORDER BY <key> DESC` (NULLs last, as in SQLite
descending order). -/
def descBefore (sort_key : String) (a b : AggRow) : Bool :=
  match orderKey sort_key a, orderKey sort_key b with
  | _, none => true
  | none, some _ => false
  | some x, some y => decide (y ≤ x)

/-- From src/app.py: `fetch_top_rows` without the final `LIMIT ?`. -/
def fetch_top_rows_nolimit (db : List MetricRow) (names : String → Option String)
    (start_year end_year : ℤ) (age_group sex : String) (sort_key : String)
    (min_prev_100k : Option ℚ) (min_cpp_chewon : Option ℤ) : List AggRow :=
  ((aggGroups names (whereFilterCurrent db start_year end_year age_group sex)).filter
    (fun r => passes_min_prev min_prev_100k r && passes_min_cpp min_cpp_chewon r)
    ).mergeSort (descBefore sort_key)

/-- From src/app.py: `fetch_top_rows(start_year, end_year, age_group, sex,
sort_key, limit, min_prev_100k, min_cpp_chewon)` over a database modelled as a
row list. -/
def fetch_top_rows (db : List MetricRow) (names : String → Option String)
    (start_year end_year : ℤ) (age_group sex : String)
    (sort_key : String := "total_cost") (limit : Nat := 15)
    (min_prev_100k : Option ℚ := none) (min_cpp_chewon : Option ℤ := none) :
    List AggRow :=
  (fetch_top_rows_nolimit db names start_year end_year age_group sex sort_key
    min_prev_100k min_cpp_chewon).take limit

/-- From src/app.py: `fetch_top_rows_after_age` without the final `LIMIT ?`
(still with its empty-`after_age_groups` early return). -/
def fetch_top_rows_after_age_nolimit (db : List MetricRow)
    (names : String → Option String) (start_year end_year : ℤ)
    (after_age_groups : List String) (sex : String) (sort_key : String)
    (min_prev_100k : Option ℚ) (min_cpp_chewon : Option ℤ) : List AggRow :=
  if after_age_groups.isEmpty then []
  else
    ((aggGroups names (whereFilterAfter db start_year end_year after_age_groups sex)).filter
      (fun r => passes_min_prev min_prev_100k r && passes_min_cpp min_cpp_chewon r)
      ).mergeSort (descBefore sort_key)

/-- From src/app.py: `fetch_top_rows_after_age` — identical semantics to
`fetch_top_rows` except that the age filter is a union of labels. -/
def fetch_top_rows_after_age (db : List MetricRow)
    (names : String → Option String) (start_year end_year : ℤ)
    (after_age_groups : List String) (sex : String)
    (sort_key : String := "total_cost") (limit : Nat := 15)
    (min_prev_100k : Option ℚ := none) (min_cpp_chewon : Option ℤ := none) :
    List AggRow :=
  (fetch_top_rows_after_age_nolimit db names start_year end_year after_age_groups
    sex sort_key min_prev_100k min_cpp_chewon).take limit

/-- Brand color constant `MIRAE_BLUE` from `build_top10_combo_chart_data_uri`. -/
def MIRAE_BLUE : String := "#003A70"

/-- Brand color constant `MIRAE_ORANGE` from `build_top10_combo_chart_data_uri`. -/
def MIRAE_ORANGE : String := "#F58220"

/-- From src/app.py: `truncate_korean(text, max_len=15)`. -/
def truncate_korean (text : String) (max_len : Nat := 15) : String :=
  if text = "" then text
  else if text.length ≤ max_len then text
  else text.take max_len ++ "..."

/-- From src/app.py: `years = max(1, int(end_year) - int(start_year) + 1)` in the
chart composer. -/
def pyYears (start_year end_year : ℤ) : ℤ := max 1 (end_year - start_year + 1)

/-- Python `max(list)` for the nonempty lists fed to axis-limit computation
(the chart composer only applies it after the empty-rows guard). -/
def pyMax : List ℚ → ℚ
  | [] => 0
  | x :: xs => xs.foldl max x

/-- Row label of the chart composer loop:
`name_display (code)` with blank-name fallback to the code and then to "질병",
and the display name truncated to 15 characters. -/
def chartLabel (r : AggRow) : String :=
  let code := r.disease_code.trim
  let name_raw :=
    if r.disease_name_ko.trim = "" then (if code = "" then "질병" else code)
    else r.disease_name_ko.trim
  let name_display := truncate_korean name_raw 15
  if code = "" then name_display else name_display ++ " (" ++ code ++ ")"

/-- The `cost_avg_eok` series of the chart composer loop, already reversed as in
`cost_avg_eok[::-1]` (rank 1 rendered at the top). -/
def annual_cost_eok_series (rows : List AggRow) (sy ey : ℤ) : List ℚ :=
  (rows.map (fun r => chewon_to_eok (some (r.total_cost / (pyYears sy ey : ℚ))))).reverse

/-- The `prev_100k` series of the chart composer loop, reversed. -/
def prev_100k_series (rows : List AggRow) : List ℚ :=
  (rows.map (fun r => pyOr0 r.prevalence_per_100k)).reverse

/-- The `cpp_man` series of the chart composer loop, reversed. -/
def cpp_man_series (rows : List AggRow) : List ℚ :=
  (rows.map (fun r => chewon_to_man (some (pyOr0 r.cost_per_patient)))).reverse

/-- One auxiliary line series of the combo chart: its tuple
`(label, vals, unit, color, position)` from the `aux1`/`aux2` assignments. -/
structure AuxSeries where
  label : String
  vals : List ℚ
  unit : String
  color : String
  pos : String
deriving DecidableEq, Repr

/-- The data content of the rendered combo chart (the matplotlib rendering
itself — figure size, annotation placement, PNG encoding — is a side effect
outside the embedding; every numeric or textual decision feeding it is kept). -/
structure ChartData where
  title : String
  compact : Bool
  labels : List String
  bar_vals : List ℚ
  main_unit : String
  aux_top : AuxSeries
  aux_bot : AuxSeries
  bar_xlim_hi : ℚ
  top_xlim_hi : ℚ
  bot_xlim_hi : ℚ
deriving DecidableEq, Repr

/-- The non-empty branch of `build_top10_combo_chart_data_uri`: series
computation, reversal, basis selection, aux top/bottom selection and axis
limits, exactly as in src/app.py lines 455-572. -/
def chartDataOf (rows : List AggRow) (title basis : String)
    (start_year end_year : ℤ) (compact : Bool) : ChartData :=
  let labels := (rows.map chartLabel).reverse
  let cost_avg_eok := annual_cost_eok_series rows start_year end_year
  let prev_100k := prev_100k_series rows
  let cpp_man := cpp_man_series rows
  let sel : List ℚ × String × AuxSeries × AuxSeries :=
    if basis = "total_cost" then
      (cost_avg_eok, "억",
        ⟨"유병률", prev_100k, " /10만", MIRAE_ORANGE, "top"⟩,
        ⟨"1인당", cpp_man, "만", MIRAE_BLUE, "bottom"⟩)
    else if basis = "prevalence_per_100k" then
      (prev_100k, "/10만",
        ⟨"연평균 총 진료비", cost_avg_eok, "억", MIRAE_ORANGE, "top"⟩,
        ⟨"1인당", cpp_man, "만", MIRAE_BLUE, "bottom"⟩)
    else
      (cpp_man, "만",
        ⟨"유병률", prev_100k, " /10만", MIRAE_ORANGE, "top"⟩,
        ⟨"연평균 총 진료비", cost_avg_eok, "억", MIRAE_BLUE, "bottom"⟩)
  let bar_vals := sel.1
  let main_unit := sel.2.1
  let aux1 := sel.2.2.1
  let aux2 := sel.2.2.2
  let aux_top := if aux1.pos = "top" then aux1 else aux2
  let aux_bot := if aux2.pos = "bottom" then aux2 else aux1
  { title := title
    compact := compact
    labels := labels
    bar_vals := bar_vals
    main_unit := main_unit
    aux_top := aux_top
    aux_bot := aux_bot
    bar_xlim_hi := if pyMax bar_vals > 0 then pyMax bar_vals * (28 / 25) else 1
    top_xlim_hi := if pyMax aux_top.vals > 0 then pyMax aux_top.vals * (5 / 4) else 1
    bot_xlim_hi := if pyMax aux_bot.vals > 0 then pyMax aux_bot.vals * (5 / 4) else 1 }

/-- From src/app.py: `build_top10_combo_chart_data_uri`.  The Python function
returns the sentinel `""` for empty `rows` and otherwise a PNG data URI; here
`none` models the `""` sentinel and `some` carries the chart's data content. -/
def build_top10_combo_chart_data (rows : List AggRow) (title basis : String)
    (start_year end_year : ℤ) (compact : Bool := false) : Option ChartData :=
  if rows = [] then none
  else some (chartDataOf rows title basis start_year end_year compact)

end SnapshotReport

namespace SnapshotReport

/-- C7: round-trip of the medium currency unit.  For every `x ≥ 0`,
`manwon_to_chewon (chewon_to_man x)` is defined (no exception) and recovers
`x` up to the rounding granularity of one man-won (= 10 chewon):
the result `v` satisfies `x - 10 < v ≤ x`. -/
theorem manwon_chewon_roundtrip (x : ℚ) (hx : 0 ≤ x) :
    ∃ v : ℤ, manwon_to_chewon (some (chewon_to_man (some x))) = some v ∧
      x - 10 < (v : ℚ) ∧ (v : ℚ) ≤ x := by
  refine ⟨⌊x / 10⌋ * 10, ?_, ?_, ?_⟩
  · have h10 : 0 ≤ x / 10 := by positivity
    simp [manwon_to_chewon, chewon_to_man, pyOr0, ratTrunc, h10]
  · have h := Int.lt_floor_add_one (x / 10)
    push_cast
    nlinarith
  · have h := Int.floor_le (x / 10)
    push_cast
    nlinarith

/-- Witness for `manwon_chewon_roundtrip` at `x = 123`. -/
theorem manwon_chewon_roundtrip_witness :
    (0 : ℚ) ≤ 123 ∧ ∃ v : ℤ,
      manwon_to_chewon (some (chewon_to_man (some (123 : ℚ)))) = some v ∧
      (123 : ℚ) - 10 < (v : ℚ) ∧ (v : ℚ) ≤ 123 :=
  ⟨by norm_num, manwon_chewon_roundtrip 123 (by norm_num)⟩

/-- C6 counterexample: `manwon_to_chewon` does not treat a null input as 0 —
`int(None)` raises `TypeError`, modelled as `none`, so on the null input it
does "raise" and produces no value (in particular not `some 0`). -/
theorem manwon_to_chewon_none_raises :
    manwon_to_chewon none = none ∧ (manwon_to_chewon none).isSome = false :=
  ⟨rfl, rfl⟩

/-- C6 (amended): `chewon_to_eok` and `chewon_to_man` are pure, total,
treat a null input as 0, never raise and apply their fixed linear divisor with
no clamping; `manwon_to_chewon` is pure and total on non-null numeric input
(truncating to an integer and multiplying by 10, no clamping), though it
raises on a null input. -/
theorem unit_converters_total :
    (∀ x : ℚ, chewon_to_eok (some x) = x / 100000) ∧
    chewon_to_eok none = 0 ∧
    (∀ x : ℚ, chewon_to_man (some x) = x / 10) ∧
    chewon_to_man none = 0 ∧
    (∀ q : ℚ, ∃ v : ℤ, manwon_to_chewon (some q) = some v) ∧
    (∀ m : ℤ, manwon_to_chewon (some (m : ℚ)) = some (m * 10)) := by
  refine ⟨fun x => rfl, by simp [chewon_to_eok, pyOr0], fun x => rfl,
    by simp [chewon_to_man, pyOr0], fun q => ⟨ratTrunc q * 10, rfl⟩, fun m => ?_⟩
  have htr : ratTrunc (m : ℚ) = m := by
    unfold ratTrunc
    rcases le_or_lt 0 m with h | h
    · rw [if_pos (by exact_mod_cast h), Int.floor_intCast]
    · rw [if_neg (not_le.mpr (by exact_mod_cast h)), Int.ceil_intCast]
  simp [manwon_to_chewon, htr]

/-- C4: `pick_emerging_rows current future limit` is the `limit`-prefix of the
rows of `future` whose trimmed disease code is absent from the trimmed codes of
`current`; it is a subsequence of `future` (relative order preserved), has
length at most `limit`, excludes every code present in `current`, and is empty
when `future` is empty. -/
theorem pick_emerging_rows_spec (now_rows after_rows : List AggRow) (limit : Nat) :
    (pick_emerging_rows now_rows after_rows limit).Sublist after_rows ∧
    (pick_emerging_rows now_rows after_rows limit).length ≤ limit ∧
    (∀ r ∈ pick_emerging_rows now_rows after_rows limit,
      r.disease_code.trim ∉ now_rows.map (fun s => s.disease_code.trim)) ∧
    pick_emerging_rows now_rows [] limit = [] ∧
    pick_emerging_rows now_rows after_rows limit =
      (after_rows.filter (fun r =>
        !((now_rows.map (fun s => s.disease_code.trim)).contains
            r.disease_code.trim))).take limit := by
  refine ⟨?_, ?_, ?_, by simp [pick_emerging_rows], rfl⟩
  · exact ((List.take_sublist _ _).trans (List.filter_sublist _))
  · exact (List.length_take_le _ _)
  · intro r hr
    have hmem := List.mem_of_mem_take hr
    have h := (List.mem_filter.mp hmem).2
    simpa using h

/-- Helper: on a nonempty row list the chart composer takes its non-sentinel
branch. -/
theorem build_chart_cons (r : AggRow) (rs : List AggRow) (title basis : String)
    (sy ey : ℤ) (compact : Bool) :
    build_top10_combo_chart_data (r :: rs) title basis sy ey compact =
      some (chartDataOf (r :: rs) title basis sy ey compact) := by
  simp [build_top10_combo_chart_data]

/-- C9: called with an empty rows list, the chart composer returns the explicit
"no chart" sentinel (the Python `""`, modelled as `none`) and no exception,
whatever the title, basis, year range and compact flag are. -/
theorem chart_empty_rows_sentinel (title basis : String) (sy ey : ℤ)
    (compact : Bool) :
    build_top10_combo_chart_data [] title basis sy ey compact = none := by
  simp [build_top10_combo_chart_data]

/-- C8: for each of the three basis values the chart composer picks the primary
bar series and the two auxiliary line series per the assignment table:
total_cost ⇒ bar = annualized cost, top = prevalence, bottom = cost-per-patient;
prevalence ⇒ bar = prevalence, top = annualized cost, bottom = cost-per-patient;
cost_per_patient ⇒ bar = cost-per-patient, top = prevalence, bottom =
annualized cost. -/
theorem chart_basis_assignment (r : AggRow) (rs : List AggRow) (title : String)
    (sy ey : ℤ) (compact : Bool) :
    (∃ cd, build_top10_combo_chart_data (r :: rs) title "total_cost" sy ey compact
        = some cd ∧
      cd.bar_vals = annual_cost_eok_series (r :: rs) sy ey ∧ cd.main_unit = "억" ∧
      cd.aux_top.label = "유병률" ∧ cd.aux_top.vals = prev_100k_series (r :: rs) ∧
      cd.aux_bot.label = "1인당" ∧ cd.aux_bot.vals = cpp_man_series (r :: rs)) ∧
    (∃ cd, build_top10_combo_chart_data (r :: rs) title "prevalence_per_100k" sy ey compact
        = some cd ∧
      cd.bar_vals = prev_100k_series (r :: rs) ∧ cd.main_unit = "/10만" ∧
      cd.aux_top.label = "연평균 총 진료비" ∧
      cd.aux_top.vals = annual_cost_eok_series (r :: rs) sy ey ∧
      cd.aux_bot.label = "1인당" ∧ cd.aux_bot.vals = cpp_man_series (r :: rs)) ∧
    (∃ cd, build_top10_combo_chart_data (r :: rs) title "cost_per_patient" sy ey compact
        = some cd ∧
      cd.bar_vals = cpp_man_series (r :: rs) ∧ cd.main_unit = "만" ∧
      cd.aux_top.label = "유병률" ∧ cd.aux_top.vals = prev_100k_series (r :: rs) ∧
      cd.aux_bot.label = "연평균 총 진료비" ∧
      cd.aux_bot.vals = annual_cost_eok_series (r :: rs) sy ey) := by
  refine ⟨⟨_, build_chart_cons r rs title "total_cost" sy ey compact, ?_⟩,
    ⟨_, build_chart_cons r rs title "prevalence_per_100k" sy ey compact, ?_⟩,
    ⟨_, build_chart_cons r rs title "cost_per_patient" sy ey compact, ?_⟩⟩ <;>
    refine ⟨rfl, rfl, rfl, rfl, rfl, rfl⟩

/-- C10 (implicit): the auxiliary colors are fixed by screen position, not by
metric identity — for every basis the aux-top line is brand orange `#F58220`
and the aux-bottom line brand blue `#003A70`; consequently the annualized-cost
metric is orange when it sits on top (basis = prevalence) and blue when it sits
at the bottom (basis = cost_per_patient). -/
theorem chart_aux_colors_fixed_by_position (r : AggRow) (rs : List AggRow)
    (title basis : String) (sy ey : ℤ) (compact : Bool) :
    (∃ cd, build_top10_combo_chart_data (r :: rs) title basis sy ey compact = some cd ∧
      cd.aux_top.color = MIRAE_ORANGE ∧ cd.aux_bot.color = MIRAE_BLUE) ∧
    (∃ cd, build_top10_combo_chart_data (r :: rs) title "prevalence_per_100k" sy ey compact
        = some cd ∧ cd.aux_top.label = "연평균 총 진료비" ∧
      cd.aux_top.color = MIRAE_ORANGE) ∧
    (∃ cd, build_top10_combo_chart_data (r :: rs) title "cost_per_patient" sy ey compact
        = some cd ∧ cd.aux_bot.label = "연평균 총 진료비" ∧
      cd.aux_bot.color = MIRAE_BLUE) := by
  refine ⟨⟨_, build_chart_cons r rs title basis sy ey compact, ?_⟩,
    ⟨_, build_chart_cons r rs title "prevalence_per_100k" sy ey compact, rfl, rfl⟩,
    ⟨_, build_chart_cons r rs title "cost_per_patient" sy ey compact, rfl, rfl⟩⟩
  by_cases h1 : basis = "total_cost"
  · subst h1; exact ⟨rfl, rfl⟩
  · by_cases h2 : basis = "prevalence_per_100k"
    · subst h2; exact ⟨rfl, rfl⟩
    · constructor <;> simp [chartDataOf, h1, h2, MIRAE_ORANGE, MIRAE_BLUE]

/-- Helper: an active (positive) prevalence HAVING clause holds exactly when the
group's prevalence is non-NULL and at least the threshold. -/
theorem passes_min_prev_iff (p : ℚ) (hp : 0 < p) (r : AggRow) :
    passes_min_prev (some p) r = true ↔
      ∃ v, r.prevalence_per_100k = some v ∧ p ≤ v := by
  cases h : r.prevalence_per_100k with
  | none => simp [passes_min_prev, hp, h]
  | some v => simp [passes_min_prev, hp, h]

/-- Helper: an active (positive) cost-per-patient HAVING clause holds exactly
when the group's cost-per-patient is non-NULL and at least the threshold. -/
theorem passes_min_cpp_iff (c : ℤ) (hc : 0 < c) (r : AggRow) :
    passes_min_cpp (some c) r = true ↔
      ∃ w, r.cost_per_patient = some w ∧ (c : ℚ) ≤ w := by
  cases h : r.cost_per_patient with
  | none => simp [passes_min_cpp, hc, h]
  | some w => simp [passes_min_cpp, hc, h]

/-- Helper: membership in the sorted, HAVING-filtered group list. -/
theorem mem_sorted_filtered_iff (groups : List AggRow) (sort_key : String)
    (p : ℚ) (c : ℤ) (hp : 0 < p) (hc : 0 < c) (g : AggRow) :
    g ∈ (groups.filter
        (fun r => passes_min_prev (some p) r && passes_min_cpp (some c) r)
        ).mergeSort (descBefore sort_key) ↔
      g ∈ groups ∧ ((∃ v, g.prevalence_per_100k = some v ∧ p ≤ v) ∧
        (∃ w, g.cost_per_patient = some w ∧ (c : ℚ) ≤ w)) := by
  rw [(List.mergeSort_perm _ _).mem_iff, List.mem_filter]
  simp only [Bool.and_eq_true, passes_min_prev_iff p hp, passes_min_cpp_iff c hc]

/-- Helper: every member of the GROUP BY output is the aggregation of some
disease code. -/
theorem mem_aggGroups (names : String → Option String) (filtered : List MetricRow)
    (g : AggRow) (hg : g ∈ aggGroups names filtered) :
    ∃ code, g = aggRowFor names filtered code := by
  unfold aggGroups at hg
  rcases List.mem_map.mp hg with ⟨code, _, rfl⟩
  exact ⟨code, rfl⟩

/-- Helper: every row returned by `fetch_top_rows` is the aggregation of some
disease code over the WHERE-filtered rows. -/
theorem mem_fetch_top_rows_agg (db : List MetricRow) (names : String → Option String)
    (sy ey : ℤ) (ag sx sort_key : String) (limit : Nat)
    (mp : Option ℚ) (mc : Option ℤ) (g : AggRow)
    (hg : g ∈ fetch_top_rows db names sy ey ag sx sort_key limit mp mc) :
    ∃ code, g = aggRowFor names (whereFilterCurrent db sy ey ag sx) code := by
  have h1 : g ∈ fetch_top_rows_nolimit db names sy ey ag sx sort_key mp mc :=
    List.mem_of_mem_take hg
  have h2 := (List.mergeSort_perm _ _).mem_iff.mp h1
  exact mem_aggGroups _ _ _ (List.mem_filter.mp h2).1

/-- C3: when both the minimum-prevalence and the minimum-cost-per-patient
thresholds are set and positive, a disease group belongs to the (pre-LIMIT)
result of `fetch_top_rows` and of `fetch_top_rows_after_age` iff its
prevalence is at least the prevalence threshold AND its cost-per-patient is at
least the cost threshold; the actual result is the `limit`-prefix of that list,
so every returned row meets both thresholds and a group failing either is
dropped entirely. -/
theorem fetch_filter_conjunction (db : List MetricRow)
    (names : String → Option String) (sy ey : ℤ) (ag sx sort_key : String)
    (ags : List String) (limit : Nat) (p : ℚ) (c : ℤ)
    (hp : 0 < p) (hc : 0 < c) :
    (∀ g, g ∈ fetch_top_rows_nolimit db names sy ey ag sx sort_key (some p) (some c) ↔
      g ∈ aggGroups names (whereFilterCurrent db sy ey ag sx) ∧
        ((∃ v, g.prevalence_per_100k = some v ∧ p ≤ v) ∧
         (∃ w, g.cost_per_patient = some w ∧ (c : ℚ) ≤ w))) ∧
    fetch_top_rows db names sy ey ag sx sort_key limit (some p) (some c) =
      (fetch_top_rows_nolimit db names sy ey ag sx sort_key (some p) (some c)).take limit ∧
    (∀ g ∈ fetch_top_rows db names sy ey ag sx sort_key limit (some p) (some c),
      (∃ v, g.prevalence_per_100k = some v ∧ p ≤ v) ∧
      (∃ w, g.cost_per_patient = some w ∧ (c : ℚ) ≤ w)) ∧
    (∀ g, g ∈ fetch_top_rows_after_age_nolimit db names sy ey ags sx sort_key
        (some p) (some c) ↔
      g ∈ aggGroups names (whereFilterAfter db sy ey ags sx) ∧
        ((∃ v, g.prevalence_per_100k = some v ∧ p ≤ v) ∧
         (∃ w, g.cost_per_patient = some w ∧ (c : ℚ) ≤ w))) ∧
    fetch_top_rows_after_age db names sy ey ags sx sort_key limit (some p) (some c) =
      (fetch_top_rows_after_age_nolimit db names sy ey ags sx sort_key
        (some p) (some c)).take limit ∧
    (∀ g ∈ fetch_top_rows_after_age db names sy ey ags sx sort_key limit
        (some p) (some c),
      (∃ v, g.prevalence_per_100k = some v ∧ p ≤ v) ∧
      (∃ w, g.cost_per_patient = some w ∧ (c : ℚ) ≤ w)) := by
  have hafter : ∀ g, g ∈ fetch_top_rows_after_age_nolimit db names sy ey ags sx
      sort_key (some p) (some c) ↔
      g ∈ aggGroups names (whereFilterAfter db sy ey ags sx) ∧
        ((∃ v, g.prevalence_per_100k = some v ∧ p ≤ v) ∧
         (∃ w, g.cost_per_patient = some w ∧ (c : ℚ) ≤ w)) := by
    intro g
    unfold fetch_top_rows_after_age_nolimit
    by_cases hags : ags.isEmpty
    · rw [if_pos hags]
      rw [List.isEmpty_iff.mp hags]
      simp [whereFilterAfter, aggGroups]
    · rw [if_neg hags]
      exact mem_sorted_filtered_iff _ sort_key p c hp hc g
  refine ⟨fun g => mem_sorted_filtered_iff _ sort_key p c hp hc g, rfl, ?_, hafter, rfl, ?_⟩
  · intro g hg
    exact ((mem_sorted_filtered_iff _ sort_key p c hp hc g).mp
      (List.mem_of_mem_take hg)).2
  · intro g hg
    exact ((hafter g).mp (List.mem_of_mem_take hg)).2

/-- Concrete one-row metrics table used by the witnesses. -/
def dbW : List MetricRow :=
  [{ year := 2023, age_group := "40_49", sex := "M", disease_code := "E11",
     total_cost := 1000000, patient_cnt := 500, population := 100000 }]

/-- Concrete disease-name lookup used by the witnesses (an empty table). -/
def namesW : String → Option String := fun _ => none

/-- Witness for `fetch_filter_conjunction` at concrete thresholds 5 and 100. -/
theorem fetch_filter_conjunction_witness :
    (0 : ℚ) < 5 ∧ (0 : ℤ) < 100 ∧
    (∀ g, g ∈ fetch_top_rows_nolimit dbW namesW 2020 2024 "40_49" "M" "total_cost"
        (some 5) (some 100) ↔
      g ∈ aggGroups namesW (whereFilterCurrent dbW 2020 2024 "40_49" "M") ∧
        ((∃ v, g.prevalence_per_100k = some v ∧ 5 ≤ v) ∧
         (∃ w, g.cost_per_patient = some w ∧ ((100 : ℤ) : ℚ) ≤ w))) :=
  ⟨by norm_num, by norm_num,
    (fetch_filter_conjunction dbW namesW 2020 2024 "40_49" "M" "total_cost"
      ["50_59"] 15 5 100 (by norm_num) (by norm_num)).1⟩

/-- C5: every row of the aggregator's result has non-negative coerced
`prevalence_per_100k` and `cost_per_patient` (the downstream Python
`float(row.get(...) or 0)` coercion is `pyOr0`), each is exactly 0 (via a NULL,
never a division by zero, NaN or Inf) when its denominator sum is 0, provided
the underlying table carries non-negative quantities. -/
theorem fetch_top_rows_derived_nonneg (db : List MetricRow)
    (names : String → Option String) (sy ey : ℤ) (ag sx sort_key : String)
    (limit : Nat) (mp : Option ℚ) (mc : Option ℤ)
    (hdb : ∀ m ∈ db, 0 ≤ m.total_cost ∧ 0 ≤ m.patient_cnt ∧ 0 ≤ m.population) :
    ∀ g ∈ fetch_top_rows db names sy ey ag sx sort_key limit mp mc,
      (0 ≤ pyOr0 g.prevalence_per_100k ∧ 0 ≤ pyOr0 g.cost_per_patient) ∧
      (g.population = 0 →
        g.prevalence_per_100k = none ∧ pyOr0 g.prevalence_per_100k = 0) ∧
      (g.patient_cnt = 0 →
        g.cost_per_patient = none ∧ pyOr0 g.cost_per_patient = 0) := by
  intro g hg
  obtain ⟨code, rfl⟩ := mem_fetch_top_rows_agg db names sy ey ag sx sort_key limit
    mp mc g hg
  have hf : ∀ m ∈ (whereFilterCurrent db sy ey ag sx).filter
      (fun m => m.disease_code == code),
      0 ≤ m.total_cost ∧ 0 ≤ m.patient_cnt ∧ 0 ≤ m.population := by
    intro m hm
    exact hdb m (List.mem_of_mem_filter (List.mem_of_mem_filter hm))
  set gg := (whereFilterCurrent db sy ey ag sx).filter
    (fun m => m.disease_code == code) with hgg
  have hcost : 0 ≤ (gg.map (fun m => m.total_cost)).sum := by
    apply List.sum_nonneg
    intro x hx
    rcases List.mem_map.mp hx with ⟨m, hm, rfl⟩
    exact (hf m hm).1
  have hpat : 0 ≤ (gg.map (fun m => m.patient_cnt)).sum := by
    apply List.sum_nonneg
    intro x hx
    rcases List.mem_map.mp hx with ⟨m, hm, rfl⟩
    exact (hf m hm).2.1
  have hpop : 0 ≤ (gg.map (fun m => m.population)).sum := by
    apply List.sum_nonneg
    intro x hx
    rcases List.mem_map.mp hx with ⟨m, hm, rfl⟩
    exact (hf m hm).2.2
  simp only [aggRowFor, ← hgg]
  refine ⟨⟨?_, ?_⟩, ?_, ?_⟩
  · by_cases h0 : (gg.map (fun m => m.population)).sum = 0
    · simp [h0, pyOr0]
    · rw [if_neg h0]
      simp only [pyOr0, Option.getD_some]
      have h1 : (0 : ℚ) ≤ ((((gg.map (fun m => m.patient_cnt)).sum : ℤ)) : ℚ) := by
        exact_mod_cast hpat
      have h2 : (0 : ℚ) ≤ ((((gg.map (fun m => m.population)).sum : ℤ)) : ℚ) := by
        exact_mod_cast hpop
      exact mul_nonneg (div_nonneg h1 h2) (by norm_num)
  · by_cases h0 : (gg.map (fun m => m.patient_cnt)).sum = 0
    · simp [h0, pyOr0]
    · rw [if_neg h0]
      simp only [pyOr0, Option.getD_some]
      have h1 : (0 : ℚ) ≤ ((((gg.map (fun m => m.patient_cnt)).sum : ℤ)) : ℚ) := by
        exact_mod_cast hpat
      exact div_nonneg hcost h1
  · intro h0
    simp [h0, pyOr0]
  · intro h0
    simp [h0, pyOr0]

/-- Witness for `fetch_top_rows_derived_nonneg` on the one-row table `dbW`. -/
theorem fetch_top_rows_derived_nonneg_witness :
    (∀ m ∈ dbW, 0 ≤ m.total_cost ∧ 0 ≤ m.patient_cnt ∧ 0 ≤ m.population) ∧
    (∀ g ∈ fetch_top_rows dbW namesW 2020 2024 "40_49" "M" "total_cost" 15
        (some 5) (some 100),
      (0 ≤ pyOr0 g.prevalence_per_100k ∧ 0 ≤ pyOr0 g.cost_per_patient) ∧
      (g.population = 0 →
        g.prevalence_per_100k = none ∧ pyOr0 g.prevalence_per_100k = 0) ∧
      (g.patient_cnt = 0 →
        g.cost_per_patient = none ∧ pyOr0 g.cost_per_patient = 0)) :=
  ⟨by decide, fetch_top_rows_derived_nonneg dbW namesW 2020 2024 "40_49" "M"
    "total_cost" 15 (some 5) (some 100) (by decide)⟩

/-- Helper: the upload-failure message can never coincide with the
audit-write-failure message, whatever the wrapped exception texts are. -/
theorem upload_msg_ne_audit_msg (a b : String) :
    ("PDF R2 업로드 실패: " ++ a) ≠ ("report_issue DB 기록 실패: " ++ b) := by
  intro h
  have h2 : ("PDF R2 업로드 실패: " ++ a).data
      = ("report_issue DB 기록 실패: " ++ b).data := congrArg String.data h
  rw [String.data_append, String.data_append] at h2
  have hd1 : ("PDF R2 업로드 실패: ").data = 'P' :: ("DF R2 업로드 실패: ").data := rfl
  have hd2 : ("report_issue DB 기록 실패: ").data
      = 'r' :: ("eport_issue DB 기록 실패: ").data := rfl
  rw [hd1, hd2, List.cons_append, List.cons_append] at h2
  injection h2 with hhead _
  exact absurd hhead (by decide)

/-- C1: when the blob-upload step fails, `publish_report` raises the distinct
artifact-storage error `PDF R2 업로드 실패: ...` — never equal to the
audit-write error `report_issue DB 기록 실패: ...` — and aborts before the
audit step: `insert_report_issue` is not invoked and the audit store is left
unchanged. -/
theorem publish_upload_failure_aborts (env : PublishEnv)
    (store : List AuditRecord) (a : PublishArgs) (e : String)
    (h : env.uploadOutcome = .error e) :
    (publish_report env store a).result = .error ("PDF R2 업로드 실패: " ++ e) ∧
    (publish_report env store a).store = store ∧
    (publish_report env store a).insert_invoked = false ∧
    (∀ e2 : String,
      ("PDF R2 업로드 실패: " ++ e) ≠ ("report_issue DB 기록 실패: " ++ e2)) := by
  obtain ⟨now, up, ins⟩ := env
  cases h
  exact ⟨rfl, rfl, rfl, fun e2 => upload_msg_ne_audit_msg e e2⟩

/-- Concrete clock for the publish witnesses. -/
def nowW : KstNow := { year := "2025", mmdd := "0101", dateStr := "2025-01-01" }

/-- Concrete request context for the publish witnesses. -/
def argsW : PublishArgs :=
  { segments_version := "1.0.0", fc_id := "FC001", fc_name := "김철수",
    customer_name := some "테스트고객", customer_gender := "남성",
    customer_age_band := "40대", start_year := 2020, end_year := 2024,
    sort_key := "total_cost", min_prev_100k := 50, min_cpp_manwon := 100 }

/-- Witness for `publish_upload_failure_aborts` with a concrete failing
upload. -/
theorem publish_upload_failure_aborts_witness :
    (PublishEnv.mk nowW (.error "boom") (.ok ())).uploadOutcome = .error "boom" ∧
    ((publish_report (PublishEnv.mk nowW (.error "boom") (.ok ())) [] argsW).result
        = .error ("PDF R2 업로드 실패: " ++ "boom") ∧
      (publish_report (PublishEnv.mk nowW (.error "boom") (.ok ())) [] argsW).store = [] ∧
      (publish_report (PublishEnv.mk nowW (.error "boom") (.ok ())) [] argsW).insert_invoked
        = false ∧
      (∀ e2 : String,
        ("PDF R2 업로드 실패: " ++ "boom") ≠ ("report_issue DB 기록 실패: " ++ e2))) :=
  ⟨rfl, publish_upload_failure_aborts (PublishEnv.mk nowW (.error "boom") (.ok ()))
    [] argsW "boom" rfl⟩

/-- Helper: inserting a record created today bumps today's issue count by
one. -/
theorem today_count_append_today (store : List AuditRecord) (rec : AuditRecord)
    (d : String) (h : rec.created_date = d) :
    today_report_issue_count (store ++ [rec]) d =
      today_report_issue_count store d + 1 := by
  simp [today_report_issue_count, List.filter_append, h]

/-- C2: the compliance code is
`{year}-{service_name}-v{version}-{MMDD}{seq}` with year and MMDD from the KST
clock and `seq = (count of audit records created today) + 1` zero-padded to
four digits, and two sequential same-day publishes (both side effects
succeeding, no concurrency) produce sequence numbers `s` and `s + 1`: distinct
and strictly increasing.  The final conjunct states the zero-padding width of
the sequence field. -/
theorem compliance_code_daily_sequence (now : KstNow) (store : List AuditRecord)
    (a1 a2 : PublishArgs) :
    (publish_report (envOk now) store a1).result =
      .ok (now.year ++ "-" ++ "보장점검" ++ "-v" ++ a1.segments_version ++ "-" ++
        now.mmdd ++ pad4 (today_report_issue_count store now.dateStr + 1)) ∧
    (publish_report (envOk now) (publish_report (envOk now) store a1).store a2).result =
      .ok (now.year ++ "-" ++ "보장점검" ++ "-v" ++ a2.segments_version ++ "-" ++
        now.mmdd ++ pad4 (today_report_issue_count store now.dateStr + 2)) ∧
    today_report_issue_count (publish_report (envOk now) store a1).store now.dateStr + 1 =
      (today_report_issue_count store now.dateStr + 1) + 1 ∧
    today_report_issue_count store now.dateStr + 1 <
      today_report_issue_count (publish_report (envOk now) store a1).store now.dateStr + 1 ∧
    (∀ n : Nat, (pad4 n).length = max 4 (toString n).length) := by
  have hcount : today_report_issue_count (publish_report (envOk now) store a1).store
      now.dateStr = today_report_issue_count store now.dateStr + 1 :=
    today_count_append_today store _ now.dateStr rfl
  refine ⟨rfl, ?_, by omega, by omega, ?_⟩
  · have h2 : (publish_report (envOk now)
        (publish_report (envOk now) store a1).store a2).result =
        .ok (now.year ++ "-" ++ "보장점검" ++ "-v" ++ a2.segments_version ++ "-" ++
          now.mmdd ++ pad4 (today_report_issue_count
            (publish_report (envOk now) store a1).store now.dateStr + 1)) := rfl
    rw [h2, hcount]
  · intro n
    have hlen : (pad4 n).length = (4 - (toString n).length) + (toString n).length := by
      simp [pad4, String.length_append]
    rw [hlen]
    omega

end SnapshotReport
